import Mathlib

/-!
Verification of the query-generation and result-classification logic of the
"unexpected test pass" analyzers (GPU and web-test variants), plus the two
code-generation scripts, against their natural-language specification.

The Python sources are shallowly embedded: module-level string templates
become Lean `String` constants, `str.format` placeholder substitution becomes
Lean functions from the placeholder values to the formatted string, fallible
code returns `Except`, and calls to the external query engine are modelled by
passing the engine response as an explicit argument.
-/

/-! ## Shared string machinery -/

/-- The string `needle` occurs as a contiguous substring of `hay`. -/
def strContains (hay needle : String) : Prop :=
  ∃ a b, hay = a ++ needle ++ b

/-- The string `suffix` is a suffix of `hay`. -/
def strEndsWith (hay suffix : String) : Prop :=
  ∃ a, hay = a ++ suffix

/-! ## Builder types

Modelled from the spec: `unexpected_passes_common.constants.BuilderTypes` is
not under src/.  The spec describes the two recognized builder
classifications (continuous-integration vs. try); the string values are
corroborated by the table names the sources hardcode
(`gpu_ci_test_results`, `gpu_try_test_results`). -/

/-- The continuous-integration builder type tag. -/
def BuilderTypes.CI : String := "ci"

/-- The try-job builder type tag. -/
def BuilderTypes.TRY : String := "try"

/-- Modelled from the spec: `unexpected_passes_common.queries.SUBMITTED_BUILDS_SUBQUERY`
is not under src/.  Per the spec, try-job templates prepend a sub-query
restricting to builds that were actually used for code-review submission;
its exact text is immaterial to the theorems below. -/
def SUBMITTED_BUILDS_SUBQUERY : String :=
  "  submitted_builds AS (\n" ++
  "    SELECT id\n" ++
  "    FROM builds_used_for_cl_submission\n" ++
  "  ),"

/-- Modelled from the spec: `unexpected_passes_common.queries.TARGET_RESULTS_PER_QUERY`
is not under src/.  The spec calls it the target per-query row budget; its
exact value is immaterial to the theorems below. -/
def TARGET_RESULTS_PER_QUERY : Nat := 20000

/-- The row filter shared by every results-producing subquery
(`AND status != "SKIP"` in the SQL text). -/
def STATUS_SKIP_FILTER : String := "AND status != \"SKIP\""

/-! ## GPU variant (src/content/test/gpu/unexpected_passes/gpu_queries.py) -/

/-- `RESULTS_SUBQUERY`, as a function of its `builder_type` and
`test_filter_clause` placeholders. -/
def Gpu.RESULTS_SUBQUERY (builder_type test_filter_clause : String) : String :=
  "  results AS (\n" ++
  "    SELECT\n" ++
  "      exported.id,\n" ++
  "      test_id,\n" ++
  "      status,\n" ++
  "      (\n" ++
  "        SELECT value\n" ++
  "        FROM tr.tags\n" ++
  "        WHERE key = \"step_name\") as step_name,\n" ++
  "      ARRAY(\n" ++
  "        SELECT value\n" ++
  "        FROM tr.tags\n" ++
  "        WHERE key = \"typ_tag\") as typ_tags,\n" ++
  "      ARRAY(\n" ++
  "        SELECT value\n" ++
  "        FROM tr.tags\n" ++
  "        WHERE key = \"raw_typ_expectation\") as typ_expectations\n" ++
  "    FROM\n" ++
  "      `chrome-luci-data.chromium.gpu_" ++ builder_type ++ "_test_results` tr,\n" ++
  "      builds b\n" ++
  "    WHERE\n" ++
  "      exported.id = build_inv_id\n" ++
  "      " ++ STATUS_SKIP_FILTER ++ "\n" ++
  "      " ++ test_filter_clause ++ "\n" ++
  "  )"

/-- `FINAL_SELECTOR_QUERY` of the GPU variant. -/
def Gpu.FINAL_SELECTOR_QUERY : String :=
  "SELECT *\n" ++
  "FROM results\n" ++
  "WHERE\n" ++
  "  \"Failure\" IN UNNEST(typ_expectations)\n" ++
  "  OR \"RetryOnFailure\" IN UNNEST(typ_expectations)"

/-- `GPU_CI_BQ_QUERY_TEMPLATE`, as a function of the one placeholder
(`test_filter_clause`) left open after the module-level formatting. -/
def Gpu.GPU_CI_BQ_QUERY_TEMPLATE (test_filter_clause : String) : String :=
  "WITH\n" ++
  "  builds AS (\n" ++
  "    SELECT\n" ++
  "      DISTINCT exported.id build_inv_id,\n" ++
  "      partition_time\n" ++
  "    FROM\n" ++
  "      `chrome-luci-data.chromium.gpu_ci_test_results` tr\n" ++
  "    WHERE\n" ++
  "      exported.realm = \"chromium:ci\"\n" ++
  "      AND STRUCT(\"builder\", @builder_name) IN UNNEST(variant)\n" ++
  "    ORDER BY partition_time DESC\n" ++
  "    LIMIT @num_builds\n" ++
  "  ),\n" ++
  Gpu.RESULTS_SUBQUERY (BuilderTypes.CI) test_filter_clause ++ "\n" ++
  Gpu.FINAL_SELECTOR_QUERY ++ "\n"

/-- `GPU_TRY_BQ_QUERY_TEMPLATE`, as a function of the one placeholder
(`test_filter_clause`) left open after the module-level formatting. -/
def Gpu.GPU_TRY_BQ_QUERY_TEMPLATE (test_filter_clause : String) : String :=
  "WITH\n" ++
  SUBMITTED_BUILDS_SUBQUERY ++ "\n" ++
  "  builds AS (\n" ++
  "    SELECT\n" ++
  "      DISTINCT exported.id build_inv_id,\n" ++
  "      partition_time\n" ++
  "    FROM\n" ++
  "      `chrome-luci-data.chromium.gpu_try_test_results` tr,\n" ++
  "      submitted_builds sb\n" ++
  "    WHERE\n" ++
  "      exported.realm = \"chromium:try\"\n" ++
  "      AND STRUCT(\"builder\", @builder_name) IN UNNEST(variant)\n" ++
  "      AND exported.id = sb.id\n" ++
  "    ORDER BY partition_time DESC\n" ++
  "    LIMIT @num_builds\n" ++
  "  ),\n" ++
  Gpu.RESULTS_SUBQUERY (BuilderTypes.TRY) test_filter_clause ++ "\n" ++
  Gpu.FINAL_SELECTOR_QUERY ++ "\n"

/-- `TEST_FILTER_QUERY_TEMPLATE` of the GPU variant, as a function of its
`builder_type`, `suite` and `suite_filter_clause` placeholders. -/
def Gpu.TEST_FILTER_QUERY_TEMPLATE
    (builder_type suite suite_filter_clause : String) : String :=
  "WITH\n" ++
  "  builds AS (\n" ++
  "    SELECT\n" ++
  "      DISTINCT exported.id build_inv_id,\n" ++
  "      partition_time\n" ++
  "    FROM `chrome-luci-data.chromium.gpu_" ++ builder_type ++ "_test_results` tr\n" ++
  "    WHERE\n" ++
  "      exported.realm = \"chromium:" ++ builder_type ++ "\"\n" ++
  "      AND STRUCT(\"builder\", @builder_name) IN UNNEST(variant)\n" ++
  "    ORDER BY partition_time DESC\n" ++
  "    LIMIT 50\n" ++
  "  ),\n" ++
  "  results AS (\n" ++
  "    SELECT\n" ++
  "      exported.id,\n" ++
  "      test_id,\n" ++
  "      ARRAY(\n" ++
  "        SELECT value\n" ++
  "        FROM tr.tags\n" ++
  "        WHERE key = \"typ_tag\") as typ_tags,\n" ++
  "      ARRAY(\n" ++
  "        SELECT value\n" ++
  "        FROM tr.tags\n" ++
  "        WHERE key = \"raw_typ_expectation\") as typ_expectations\n" ++
  "    FROM\n" ++
  "      `chrome-luci-data.chromium.gpu_" ++ builder_type ++ "_test_results` tr,\n" ++
  "      builds b\n" ++
  "    WHERE\n" ++
  "      exported.id = build_inv_id\n" ++
  "      " ++ STATUS_SKIP_FILTER ++ "\n" ++
  "      AND REGEXP_CONTAINS(\n" ++
  "        test_id,\n" ++
  "        r\"gpu_tests\\." ++ suite ++ "\\.\")\n" ++
  "  )\n" ++
  "SELECT DISTINCT r.test_id\n" ++
  "FROM results r\n" ++
  "WHERE\n" ++
  "  (\n" ++
  "    \"Failure\" IN UNNEST(typ_expectations)\n" ++
  "    OR \"RetryOnFailure\" IN UNNEST(typ_expectations))\n" ++
  "  " ++ suite_filter_clause ++ "\n"

/-- `ACTIVE_BUILDER_QUERY_TEMPLATE` of the GPU variant, as a function of its
`builder_type` placeholder. -/
def Gpu.ACTIVE_BUILDER_QUERY_TEMPLATE (builder_type : String) : String :=
  "WITH\n" ++
  "  builders AS (\n" ++
  "    SELECT\n" ++
  "      (\n" ++
  "        SELECT value\n" ++
  "        FROM tr.variant\n" ++
  "        WHERE key = \"builder\") as builder_name\n" ++
  "    FROM\n" ++
  "      `chrome-luci-data.chromium.gpu_" ++ builder_type ++ "_test_results` tr\n" ++
  "  )\n" ++
  "SELECT DISTINCT builder_name\n" ++
  "FROM builders\n"

/-- `QueryGeneratorImpl` of the GPU variant: selects the static template by
builder type, raising (`Except.error`) on an unrecognized type, and formats
it once per test filter clause. -/
def Gpu.QueryGeneratorImpl (test_filter_clauses : List String)
    (builder_type : String) : Except String (List String) :=
  if builder_type = BuilderTypes.CI then
    Except.ok (test_filter_clauses.map Gpu.GPU_CI_BQ_QUERY_TEMPLATE)
  else if builder_type = BuilderTypes.TRY then
    Except.ok (test_filter_clauses.map Gpu.GPU_TRY_BQ_QUERY_TEMPLATE)
  else
    Except.error ("Unknown builder type " ++ builder_type)

/-- Row semantics of the GPU `FINAL_SELECTOR_QUERY` WHERE condition:
a row is kept when `"Failure"` or `"RetryOnFailure"` occurs among its
`typ_expectations`. -/
def Gpu.finalSelectorKeeps (typ_expectations : List String) : Bool :=
  typ_expectations.contains ("Failure") ||
    typ_expectations.contains ("RetryOnFailure")

/-- Row semantics of the `AND status != "SKIP"` filter of the results
subqueries. -/
def rowPassesStatusFilter (status : String) : Bool :=
  status != "SKIP"

/-! ## Web-test variant
(src/third_party/.../blinkpy/web_tests/stale_expectation_removal/queries.py) -/

/-- `RESULTS_SUBQUERY` of the web-test variant, as a function of its
`builder_type` and `test_filter_clause` placeholders. -/
def WebTest.RESULTS_SUBQUERY (builder_type test_filter_clause : String) : String :=
  "  results AS (\n" ++
  "    SELECT\n" ++
  "      exported.id,\n" ++
  "      test_id,\n" ++
  "      status,\n" ++
  "      duration,\n" ++
  "      (\n" ++
  "        SELECT value\n" ++
  "        FROM tr.tags\n" ++
  "        WHERE key = \"step_name\") as step_name,\n" ++
  "      (\n" ++
  "        SELECT value\n" ++
  "        FROM tr.tags\n" ++
  "        WHERE key = \"web_tests_base_timeout\") as timeout,\n" ++
  "      ARRAY(\n" ++
  "        SELECT value\n" ++
  "        FROM tr.tags\n" ++
  "        WHERE key = \"typ_tag\") as typ_tags,\n" ++
  "      ARRAY(\n" ++
  "        SELECT value\n" ++
  "        FROM tr.tags\n" ++
  "        WHERE key = \"raw_typ_expectation\") as typ_expectations,\n" ++
  "      ARRAY(\n" ++
  "        SELECT value\n" ++
  "        FROM tr.tags\n" ++
  "        WHERE key = \"web_tests_used_expectations_file\") as expectation_files\n" ++
  "    FROM\n" ++
  "      `chrome-luci-data.chromium.blink_web_tests_" ++ builder_type ++ "_test_results` tr,\n" ++
  "      builds b\n" ++
  "    WHERE\n" ++
  "      exported.id = build_inv_id\n" ++
  "      " ++ STATUS_SKIP_FILTER ++ "\n" ++
  "      " ++ test_filter_clause ++ "\n" ++
  "  )"

/-- `FINAL_SELECTOR_QUERY` of the web-test variant. -/
def WebTest.FINAL_SELECTOR_QUERY : String :=
  "SELECT *\n" ++
  "FROM results\n" ++
  "WHERE\n" ++
  "  \"Failure\" IN UNNEST(typ_expectations)\n" ++
  "  OR \"Crash\" IN UNNEST(typ_expectations)\n" ++
  "  OR \"Timeout\" IN UNNEST(typ_expectations)"

/-- `CI_BQ_QUERY_TEMPLATE` of the web-test variant, as a function of the one
placeholder (`test_filter_clause`) left open after the module-level
formatting. -/
def WebTest.CI_BQ_QUERY_TEMPLATE (test_filter_clause : String) : String :=
  "WITH\n" ++
  "  builds AS (\n" ++
  "    SELECT\n" ++
  "      DISTINCT exported.id build_inv_id,\n" ++
  "      partition_time\n" ++
  "    FROM\n" ++
  "      `chrome-luci-data.chromium.blink_web_tests_ci_test_results` tr\n" ++
  "    WHERE\n" ++
  "      exported.realm = \"chromium:ci\"\n" ++
  "      AND STRUCT(\"builder\", @builder_name) IN UNNEST(variant)\n" ++
  "    ORDER BY partition_time DESC\n" ++
  "    LIMIT @num_builds\n" ++
  "  ),\n" ++
  WebTest.RESULTS_SUBQUERY (BuilderTypes.CI) test_filter_clause ++ "\n" ++
  WebTest.FINAL_SELECTOR_QUERY ++ "\n"

/-- `TRY_BQ_QUERY_TEMPLATE` of the web-test variant, as a function of the one
placeholder (`test_filter_clause`) left open after the module-level
formatting. -/
def WebTest.TRY_BQ_QUERY_TEMPLATE (test_filter_clause : String) : String :=
  "WITH\n" ++
  SUBMITTED_BUILDS_SUBQUERY ++ "\n" ++
  "  builds AS (\n" ++
  "    SELECT\n" ++
  "      DISTINCT exported.id build_inv_id,\n" ++
  "      partition_time\n" ++
  "    FROM\n" ++
  "      `chrome-luci-data.chromium.blink_web_tests_try_test_results` tr,\n" ++
  "      submitted_builds sb\n" ++
  "    WHERE\n" ++
  "      exported.realm = \"chromium:try\"\n" ++
  "      AND STRUCT(\"builder\", @builder_name) IN UNNEST(variant)\n" ++
  "      AND exported.id = sb.id\n" ++
  "    ORDER BY partition_time DESC\n" ++
  "    LIMIT @num_builds\n" ++
  "  ),\n" ++
  WebTest.RESULTS_SUBQUERY (BuilderTypes.TRY) test_filter_clause ++ "\n" ++
  WebTest.FINAL_SELECTOR_QUERY ++ "\n"

/-- `TEST_FILTER_QUERY_TEMPLATE` of the web-test variant, as a function of
its `builder_type` placeholder. -/
def WebTest.TEST_FILTER_QUERY_TEMPLATE (builder_type : String) : String :=
  "WITH\n" ++
  "  builds AS (\n" ++
  "    SELECT\n" ++
  "      DISTINCT exported.id build_inv_id,\n" ++
  "      partition_time\n" ++
  "    FROM\n" ++
  "      `chrome-luci-data.chromium.blink_web_tests_" ++ builder_type ++ "_test_results` tr\n" ++
  "    WHERE\n" ++
  "      exported.realm = \"chromium:" ++ builder_type ++ "\"\n" ++
  "      AND STRUCT(\"builder\", @builder_name) IN UNNEST(variant)\n" ++
  "    ORDER BY partition_time DESC\n" ++
  "    LIMIT 50\n" ++
  "  ),\n" ++
  "  results AS (\n" ++
  "    SELECT\n" ++
  "      exported.id,\n" ++
  "      test_id,\n" ++
  "      ARRAY(\n" ++
  "        SELECT value\n" ++
  "        FROM tr.tags\n" ++
  "        WHERE key = \"raw_typ_expectation\") as typ_expectations\n" ++
  "    FROM\n" ++
  "      `chrome-luci-data.chromium.blink_web_tests_" ++ builder_type ++ "_test_results` tr,\n" ++
  "      builds b\n" ++
  "    WHERE\n" ++
  "      exported.id = build_inv_id\n" ++
  "      " ++ STATUS_SKIP_FILTER ++ "\n" ++
  "  )\n" ++
  "SELECT DISTINCT r.test_id\n" ++
  "FROM results r\n" ++
  "WHERE\n" ++
  "  \"Failure\" IN UNNEST(typ_expectations)\n" ++
  "  OR \"Crash\" IN UNNEST(typ_expectations)\n" ++
  "  OR \"Timeout\" IN UNNEST(typ_expectations)\n"

/-- `ACTIVE_BUILDER_QUERY_TEMPLATE` of the web-test variant, as a function of
its `builder_type` placeholder. -/
def WebTest.ACTIVE_BUILDER_QUERY_TEMPLATE (builder_type : String) : String :=
  "WITH\n" ++
  "  builders AS (\n" ++
  "    SELECT\n" ++
  "      (\n" ++
  "        SELECT value\n" ++
  "        FROM tr.variant\n" ++
  "        WHERE key = \"builder\") as builder_name\n" ++
  "    FROM\n" ++
  "      `chrome-luci-data.chromium.blink_web_tests_" ++ builder_type ++ "_test_results` tr\n" ++
  "  )\n" ++
  "SELECT DISTINCT builder_name\n" ++
  "FROM builders\n"

/-- `QueryGeneratorImpl` of the web-test variant: selects the static template
by builder type, raising (`Except.error`) on an unrecognized type, and
formats it once per test filter clause. -/
def WebTest.QueryGeneratorImpl (test_filter_clauses : List String)
    (builder_type : String) : Except String (List String) :=
  if builder_type = BuilderTypes.CI then
    Except.ok (test_filter_clauses.map WebTest.CI_BQ_QUERY_TEMPLATE)
  else if builder_type = BuilderTypes.TRY then
    Except.ok (test_filter_clauses.map WebTest.TRY_BQ_QUERY_TEMPLATE)
  else
    Except.error ("Unknown builder type " ++ builder_type)

/-- Row semantics of the web-test `FINAL_SELECTOR_QUERY` WHERE condition:
a row is kept when `"Failure"`, `"Crash"` or `"Timeout"` occurs among its
`typ_expectations`. -/
def WebTest.finalSelectorKeeps (typ_expectations : List String) : Bool :=
  typ_expectations.contains ("Failure") ||
    typ_expectations.contains ("Crash") ||
    typ_expectations.contains ("Timeout")

/-! ## Character-list machinery for Python string primitives -/

/-- Python `s.split(sep, maxsplit)` on character lists: the first argument
after `sep` is the number of splits still allowed. -/
def pySplitLimited (sep : Char) : Nat → List Char → List (List Char)
  | _, [] => [[]]
  | 0, cs => [cs]
  | n + 1, c :: cs =>
    if c = sep then [] :: pySplitLimited sep n cs
    else
      match pySplitLimited sep (n + 1) cs with
      | [] => [[c]]
      | p :: ps => (c :: p) :: ps

/-- Whether `pat` occurs as a contiguous sublist of `s`. -/
def containsPat (pat : List Char) : List Char → Bool
  | [] => List.isPrefixOf pat []
  | c :: cs => List.isPrefixOf pat (c :: cs) || containsPat pat cs

/-- Removal of every occurrence of `pat`, scanning left to right without
overlap — the semantics of Python `s.replace(pat, "")`.  The first argument
is fuel, always instantiated with the length of the scanned list. -/
def removeAllGo (pat : List Char) : Nat → List Char → List Char
  | _, [] => []
  | 0, s => s
  | f + 1, c :: cs =>
    if pat ≠ [] && List.isPrefixOf pat (c :: cs) then
      removeAllGo pat f (List.drop (pat.length - 1) cs)
    else
      c :: removeAllGo pat f cs

/-- Python `s.replace(pat, "")` on character lists. -/
def removeAll (pat s : List Char) : List Char :=
  removeAllGo pat s.length s

/-! ## Prefix stripping (`_StripPrefixFromTestId`) -/

/-- `GpuBigQueryQuerier._StripPrefixFromTestId`: split the test ID at the
first three dots, assert that this produced four parts, and return the last
part.  The failed assertion is modelled as `Except.error`. -/
def Gpu.StripPrefixFromTestId (test_id : String) : Except String String :=
  let split_id := pySplitLimited ('.') 3 test_id.toList
  if split_id.length = 4 then
    Except.ok (String.mk (split_id.getLastD []))
  else
    Except.error ("assert len(split_id) == 4")

/-- `KNOWN_TEST_ID_PREFIXES` of the web-test variant. -/
def WebTest.KNOWN_TEST_ID_PREFIXES : List String :=
  ["ninja://:blink_web_tests/", "ninja://:webgpu_blink_web_tests"]

/-- The loop body of `WebTestBigQueryQuerier._StripPrefixFromTestId`: try
each known prefix in order; on the first match return
`test_id.replace(prefix, "")`; raise if none matches. -/
def WebTest.stripLoop : List String → String → Except String String
  | [], test_id =>
    Except.error ("Unable to strip prefix from test ID " ++ test_id)
  | p :: ps, test_id =>
    if p.toList.isPrefixOf test_id.toList then
      Except.ok (String.mk (removeAll p.toList test_id.toList))
    else
      WebTest.stripLoop ps test_id

/-- `WebTestBigQueryQuerier._StripPrefixFromTestId`. -/
def WebTest.StripPrefixFromTestId (test_id : String) : Except String String :=
  WebTest.stripLoop WebTest.KNOWN_TEST_ID_PREFIXES test_id

/-! ## Split query generation (large-query mode) -/

/-- Modelled from the spec: `unexpected_passes_common.queries.SplitQueryGenerator`
is not under src/.  Greedy partition of the identifier list into chunks of at
most `k` identifiers, the remainder forming the last chunk. -/
def chunkList (k : Nat) (ids : List String) : List (List String) :=
  if h : ids = [] then []
  else if hk : k = 0 then [ids]
  else ids.take k :: chunkList k (ids.drop k)
termination_by ids.length
decreasing_by
  simp only [List.length_drop]
  have h1 : 0 < ids.length := List.length_pos.mpr h
  have h2 : 0 < k := Nat.pos_of_ne_zero hk
  omega

/-- Modelled from the spec: the split query generator partitions the
identifier list into explicit-membership clauses, each sized so that
(estimated rows per test) × (clause size) stays within the per-query row
budget; the per-clause identifier allowance is therefore
`budget / rowsPerTest`. -/
def splitTestIds (rowsPerTest budget : Nat) (ids : List String) :
    List (List String) :=
  chunkList (budget / rowsPerTest) ids

/-! ## Query generator selection (`_GetQueryGeneratorForBuilder`) -/

/-- A query generator as handed back to the caller: either the fixed
single-clause generator or the split generator over explicit test IDs. -/
inductive QueryGen
  | fixed (builder_type : String) (clause : String)
  | split (builder_type : String) (test_ids : List String)
      (target_num_ids : Nat)
deriving DecidableEq

/-- `GpuBigQueryQuerier._GetQueryGeneratorForBuilder`.  The call to the
external query engine is modelled by the `discoveryRows` argument holding
the `test_id` column of each returned row. -/
def Gpu.GetQueryGeneratorForBuilder (large_query_mode : Bool)
    (suite suite_filter_clause : String) (num_samples : Nat)
    (builder_type : String) (discoveryRows : List String) : Option QueryGen :=
  if !large_query_mode then
    some (QueryGen.fixed builder_type
      ("        AND REGEXP_CONTAINS(\n" ++
       "          test_id,\n" ++
       "          r\"gpu_tests\\." ++ suite ++ "\\.\")"))
  else
    let _query := Gpu.TEST_FILTER_QUERY_TEMPLATE builder_type suite
      suite_filter_clause
    let test_ids := discoveryRows.map (fun r => "\"" ++ r ++ "\"")
    if test_ids = [] then none
    else
      some (QueryGen.split builder_type test_ids
        (TARGET_RESULTS_PER_QUERY / num_samples))

/-- `WebTestBigQueryQuerier._GetQueryGeneratorForBuilder`.  The call to the
external query engine is modelled by the `discoveryRows` argument holding
the `test_id` column of each returned row. -/
def WebTest.GetQueryGeneratorForBuilder (large_query_mode : Bool)
    (num_samples : Nat) (builder_type : String)
    (discoveryRows : List String) : Option QueryGen :=
  if !large_query_mode then
    some (QueryGen.fixed builder_type "")
  else
    let _query := WebTest.TEST_FILTER_QUERY_TEMPLATE builder_type
    let test_ids := discoveryRows.map (fun r => "\"" ++ r ++ "\"")
    if test_ids = [] then none
    else
      some (QueryGen.split builder_type test_ids
        (TARGET_RESULTS_PER_QUERY / num_samples))

/-! ## Web-test result conversion (`_ConvertJsonResultToResultObject`) -/

/-- A JSON scalar as it reaches the timeout/duration handling. -/
inductive JsonVal
  | null
  | str (s : String)
  | num (n : Int)
deriving DecidableEq

/-- Python truthiness on the JSON scalars involved. -/
def pyTruthy : JsonVal → Bool
  | JsonVal.null => false
  | JsonVal.str s => s != ""
  | JsonVal.num n => n != 0

/-- `DEFAULT_TIMEOUT` of the web-test variant. -/
def WebTest.DEFAULT_TIMEOUT : Int := 6

/-- The pair handed to `result.SetDuration` by
`WebTestBigQueryQuerier._ConvertJsonResultToResultObject`: the duration
unchanged, and `json_result["timeout"] or DEFAULT_TIMEOUT` — Python `or`
yields the right operand exactly when the left one is falsy. -/
def WebTest.SetDurationArgs (duration timeout : JsonVal) : JsonVal × JsonVal :=
  (duration,
    if pyTruthy timeout then timeout else JsonVal.num WebTest.DEFAULT_TIMEOUT)

/-! ## Sanitizer builtins generator
(src/third_party/blink/renderer/modules/sanitizer_api/builtins/generate_builtins.py) -/

/-- Python `str.lstrip()` on one line: drop leading whitespace. -/
def pyLstripLine (cs : List Char) : List Char :=
  cs.dropWhile (fun c => c.isWhitespace)

/-- The `lstrip` helper of the generator: apply `str.lstrip` to each line of
the text. -/
def GenerateBuiltins.lstrip (s : String) : String :=
  String.mk (List.intercalate ['\n']
    ((pySplitLimited ('\n') s.toList.length s.toList).map pyLstripLine))

/-- The raw template printed by `prolog` (before per-line `lstrip`). -/
def GenerateBuiltins.prologTemplate : String :=
  "\n        // Copyright 2021 The Chromium Authors. All rights reserved.\n" ++
  "        // Use of this source code is governed by a BSD-style license that can be\n" ++
  "        // found in the LICENSE file.\n\n" ++
  "        // This file is automatically generated. Do not edit. Just generate.\n" ++
  "        // $ ninja -C ... generate_sanitizer_builtins\n\n" ++
  "        #include \"third_party/blink/renderer/modules/sanitizer_api/builtins/sanitizer_builtins.h\"\n\n" ++
  "        namespace blink \x7b\n        "

/-- Text written to the output file by `prolog` (`print` appends a final
newline). -/
def GenerateBuiltins.prologOut : String :=
  GenerateBuiltins.lstrip GenerateBuiltins.prologTemplate ++ "\n"

/-- The raw template printed by `epilog` (before per-line `lstrip`). -/
def GenerateBuiltins.epilogTemplate : String :=
  "\n        \x7d  // namespace blink\n        "

/-- Text written to the output file by `epilog`. -/
def GenerateBuiltins.epilogOut : String :=
  GenerateBuiltins.lstrip GenerateBuiltins.epilogTemplate ++ "\n"

/-- Text written to the output file by one `string_list(out, name, items)`
call: a C++ array of `const char*` holding each item in order, terminated by
a `nullptr` entry, followed by a blank line. -/
def GenerateBuiltins.string_list (name : String) (items : List String) : String :=
  "const char* const " ++ name ++ "[] = \x7b\n" ++
  String.join (items.map (fun item => "  \"" ++ item ++ "\",\n")) ++
  "  nullptr,\n" ++
  "\x7d;\n" ++
  "\n"

/-- Everything `main` writes into the output file on the success path, as a
function of the three parsed JSON inputs (the default configuration being
its `allowElements` list and its `allowAttributes` key list). -/
def GenerateBuiltins.mainOutput (baseline_elements baseline_attributes
    default_allowElements default_allowAttributes_keys : List String) : String :=
  GenerateBuiltins.prologOut ++
  GenerateBuiltins.string_list ("kBaselineElements") baseline_elements ++
  GenerateBuiltins.string_list ("kBaselineAttributes") baseline_attributes ++
  GenerateBuiltins.string_list ("kDefaultElements") default_allowElements ++
  GenerateBuiltins.string_list ("kDefaultAttributes") default_allowAttributes_keys ++
  GenerateBuiltins.epilogOut

/-- Number of occurrences of `pat` at any position of `s`. -/
def countOccur (pat : List Char) : List Char → Nat
  | [] => 0
  | c :: cs => (if List.isPrefixOf pat (c :: cs) then 1 else 0) + countOccur pat cs

/-- The `error` helper of the generator: exit code 1 plus the printed
message (`"\n\t".join` of the context line and the infos). -/
def GenerateBuiltins.error (context : String) (infos : List String) :
    Nat × List String :=
  (1, [String.intercalate "\n\t"
        (("An error occurred when when " ++ context ++ ":") :: infos)])

/-- The error-handling skeleton of `main` after flag parsing: each of the
three JSON reads and the output write is modelled by an `Except` argument
(its exception message on failure).  Returns the process exit code and the
messages printed by `error`. -/
def GenerateBuiltins.mainResult (bePath baPath dcPath outPath : String)
    (be ba : Except String (List String))
    (dc : Except String (List String × List String))
    (wr : Except String Unit) : Nat × List String :=
  match be with
  | Except.error err =>
    GenerateBuiltins.error ("reading baseline elements") [bePath, err]
  | Except.ok _ =>
    match ba with
    | Except.error err =>
      GenerateBuiltins.error ("reading baseline attributes") [baPath, err]
    | Except.ok _ =>
      match dc with
      | Except.error err =>
        GenerateBuiltins.error ("reading default configuration") [dcPath, err]
      | Except.ok _ =>
        match wr with
        | Except.error err =>
          GenerateBuiltins.error ("writing output file") [outPath, err]
        | Except.ok _ => (0, [])

/-! ## CSS property-names generator
(src/third_party/blink/renderer/build/scripts/core/css/make_css_property_names.py)

The `enum_value_to_name` dictionary built from
`properties_including_aliases` is modelled as the finished mapping
`nameOf : Nat → Option String`; `max(enum_value_to_name)` is the
`max_enum_value` argument. -/

/-- The loop body of `generate_implementation`: walk the enum values,
appending `current_offset` for each one, and for the named ones also the
name, advancing the offset by the name length plus one. -/
def CssProps.genImplLoop (nameOf : Nat → Option String) :
    List Nat → Nat → List Nat × List String
  | [], _ => ([], [])
  | v :: vs, current_offset =>
    match nameOf v with
    | some name =>
      let rest := CssProps.genImplLoop nameOf vs (current_offset + name.length + 1)
      (current_offset :: rest.1, name :: rest.2)
    | none =>
      let rest := CssProps.genImplLoop nameOf vs current_offset
      (current_offset :: rest.1, rest.2)

/-- The `property_offsets` and `property_names` lists built by
`generate_implementation`, iterating
`range(first_property_id, max_enum_value + 1)` with `current_offset = 0`. -/
def CssProps.generate_implementation (first_property_id max_enum_value : Nat)
    (nameOf : Nat → Option String) : List Nat × List String :=
  CssProps.genImplLoop nameOf
    (List.range' first_property_id (max_enum_value + 1 - first_property_id)) 0

/-- The contribution of enum value `w` to the name-table offset: name length
plus one (for the separating NUL) when `w` names a property, zero
otherwise. -/
def CssProps.namedWeight (nameOf : Nat → Option String) (w : Nat) : Nat :=
  match nameOf w with
  | some name => name.length + 1
  | none => 0

/-- Sum of the offset contributions of all enum values below `v`. -/
def CssProps.weightSumBelow (nameOf : Nat → Option String) (v : Nat) : Nat :=
  ((List.range v).map (CssProps.namedWeight nameOf)).sum

/-! ## Helper lemmas -/

set_option maxRecDepth 100000

theorem strContains_here (x n y : String) : strContains ((x ++ n) ++ y) n :=
  ⟨x, y, rfl⟩

theorem strContains_append_left {x n : String} (y : String)
    (h : strContains x n) : strContains (x ++ y) n := by
  obtain ⟨a, b, rfl⟩ := h
  exact ⟨a, b ++ y, by simp [String.append_assoc]⟩

theorem strContains_append_right (x : String) {y n : String}
    (h : strContains y n) : strContains (x ++ y) n := by
  obtain ⟨a, b, rfl⟩ := h
  exact ⟨x ++ a, b, by simp [String.append_assoc]⟩

theorem strEndsWith_here (x y z : String) :
    strEndsWith ((x ++ y) ++ z) (y ++ z) :=
  ⟨x, String.append_assoc x y z⟩

theorem gpu_results_subquery_contains_skip (bt tfc : String) :
    strContains (Gpu.RESULTS_SUBQUERY bt tfc) STATUS_SKIP_FILTER := by
  simp only [Gpu.RESULTS_SUBQUERY]
  repeat first
    | exact strContains_here _ _ _
    | apply strContains_append_left

theorem webtest_results_subquery_contains_skip (bt tfc : String) :
    strContains (WebTest.RESULTS_SUBQUERY bt tfc) STATUS_SKIP_FILTER := by
  simp only [WebTest.RESULTS_SUBQUERY]
  repeat first
    | exact strContains_here _ _ _
    | apply strContains_append_left

/-- C4: for every builder_type other than the two recognized ones, query
template selection raises in both variants; for the two recognized values it
selects the matching static template without raising. -/
theorem c4_template_selection (tfcs : List String) (bt : String) :
    ((bt ≠ BuilderTypes.CI ∧ bt ≠ BuilderTypes.TRY) →
      Gpu.QueryGeneratorImpl tfcs bt =
        Except.error ("Unknown builder type " ++ bt) ∧
      WebTest.QueryGeneratorImpl tfcs bt =
        Except.error ("Unknown builder type " ++ bt)) ∧
    Gpu.QueryGeneratorImpl tfcs (BuilderTypes.CI) =
      Except.ok (tfcs.map Gpu.GPU_CI_BQ_QUERY_TEMPLATE) ∧
    Gpu.QueryGeneratorImpl tfcs (BuilderTypes.TRY) =
      Except.ok (tfcs.map Gpu.GPU_TRY_BQ_QUERY_TEMPLATE) ∧
    WebTest.QueryGeneratorImpl tfcs (BuilderTypes.CI) =
      Except.ok (tfcs.map WebTest.CI_BQ_QUERY_TEMPLATE) ∧
    WebTest.QueryGeneratorImpl tfcs (BuilderTypes.TRY) =
      Except.ok (tfcs.map WebTest.TRY_BQ_QUERY_TEMPLATE) := by
  refine ⟨fun h => ⟨?_, ?_⟩, ?_, ?_, ?_, ?_⟩
  · unfold Gpu.QueryGeneratorImpl
    rw [if_neg h.1, if_neg h.2]
  · unfold WebTest.QueryGeneratorImpl
    rw [if_neg h.1, if_neg h.2]
  · unfold Gpu.QueryGeneratorImpl
    rw [if_pos rfl]
  · unfold Gpu.QueryGeneratorImpl
    rw [if_neg (by decide), if_pos rfl]
  · unfold WebTest.QueryGeneratorImpl
    rw [if_pos rfl]
  · unfold WebTest.QueryGeneratorImpl
    rw [if_neg (by decide), if_pos rfl]

/-- C4 witness: a concrete unrecognized builder type is rejected. -/
theorem c4_template_selection_witness :
    Gpu.QueryGeneratorImpl ["x"] "waterfall" =
      Except.error ("Unknown builder type waterfall") :=
  ((c4_template_selection ["x"] "waterfall").1 ⟨by decide, by decide⟩).1

/-- C5: every results-producing query template of either variant contains
the row filter `AND status != "SKIP"`, and a row with status `"SKIP"` fails
the filter predicate. -/
theorem c5_status_skip_filter (tfc bt suite sfc : String) :
    strContains (Gpu.GPU_CI_BQ_QUERY_TEMPLATE tfc) STATUS_SKIP_FILTER ∧
    strContains (Gpu.GPU_TRY_BQ_QUERY_TEMPLATE tfc) STATUS_SKIP_FILTER ∧
    strContains (Gpu.TEST_FILTER_QUERY_TEMPLATE bt suite sfc)
      STATUS_SKIP_FILTER ∧
    strContains (WebTest.CI_BQ_QUERY_TEMPLATE tfc) STATUS_SKIP_FILTER ∧
    strContains (WebTest.TRY_BQ_QUERY_TEMPLATE tfc) STATUS_SKIP_FILTER ∧
    strContains (WebTest.TEST_FILTER_QUERY_TEMPLATE bt) STATUS_SKIP_FILTER ∧
    rowPassesStatusFilter "SKIP" = false := by
  refine ⟨?_, ?_, ?_, ?_, ?_, ?_, by decide⟩
  · simp only [Gpu.GPU_CI_BQ_QUERY_TEMPLATE]
    iterate 3 apply strContains_append_left
    exact strContains_append_right _ (gpu_results_subquery_contains_skip _ _)
  · simp only [Gpu.GPU_TRY_BQ_QUERY_TEMPLATE]
    iterate 3 apply strContains_append_left
    exact strContains_append_right _ (gpu_results_subquery_contains_skip _ _)
  · simp only [Gpu.TEST_FILTER_QUERY_TEMPLATE]
    repeat first
      | exact strContains_here _ _ _
      | apply strContains_append_left
  · simp only [WebTest.CI_BQ_QUERY_TEMPLATE]
    iterate 3 apply strContains_append_left
    exact strContains_append_right _ (webtest_results_subquery_contains_skip _ _)
  · simp only [WebTest.TRY_BQ_QUERY_TEMPLATE]
    iterate 3 apply strContains_append_left
    exact strContains_append_right _ (webtest_results_subquery_contains_skip _ _)
  · simp only [WebTest.TEST_FILTER_QUERY_TEMPLATE]
    repeat first
      | exact strContains_here _ _ _
      | apply strContains_append_left

/-- C6: in large-query mode, an empty discovery-query result makes
`_GetQueryGeneratorForBuilder` return an absent generator (`none`) rather
than raising, in both variants; a non-empty result always yields a
generator. -/
theorem c6_empty_discovery_returns_none (suite sfc : String) (ns : Nat)
    (bt : String) :
    Gpu.GetQueryGeneratorForBuilder true suite sfc ns bt [] = none ∧
    WebTest.GetQueryGeneratorForBuilder true ns bt [] = none ∧
    (∀ r rs, (Gpu.GetQueryGeneratorForBuilder true suite sfc ns bt
      (r :: rs)).isSome = true) ∧
    (∀ r rs, (WebTest.GetQueryGeneratorForBuilder true ns bt
      (r :: rs)).isSome = true) := by
  refine ⟨?_, ?_, ?_, ?_⟩ <;>
    simp [Gpu.GetQueryGeneratorForBuilder, WebTest.GetQueryGeneratorForBuilder]

/-- C9: the web-test result conversion substitutes `DEFAULT_TIMEOUT` (6) for
the timeout whenever the source value is falsy — `None` and the empty string
alike — and passes any truthy timeout and the duration through unchanged. -/
theorem c9_timeout_defaulting (duration : JsonVal) :
    (WebTest.SetDurationArgs duration (JsonVal.null)).2 =
      JsonVal.num WebTest.DEFAULT_TIMEOUT ∧
    (WebTest.SetDurationArgs duration (JsonVal.str "")).2 =
      JsonVal.num WebTest.DEFAULT_TIMEOUT ∧
    (∀ t, pyTruthy t = true →
      WebTest.SetDurationArgs duration t = (duration, t)) ∧
    (∀ t, (WebTest.SetDurationArgs duration t).1 = duration) := by
  refine ⟨rfl, rfl, fun t ht => ?_, fun t => rfl⟩
  simp [WebTest.SetDurationArgs, ht]

/-- C9 witness: a truthy timeout string passes through unchanged. -/
theorem c9_timeout_defaulting_witness :
    WebTest.SetDurationArgs (JsonVal.num 5) (JsonVal.str "30") =
      (JsonVal.num 5, JsonVal.str "30") :=
  (c9_timeout_defaulting (JsonVal.num 5)).2.2.1 (JsonVal.str "30") (by decide)

/-- C1 counterexample: the claim asserts that a row whose expectation tags
are `["RetryOnFailure"]` is included in both variants, but the web-test
final selector clause only admits Failure, Crash and Timeout, so such a row
is excluded there. -/
theorem c1_final_selector_counterexample :
    WebTest.finalSelectorKeeps ["RetryOnFailure"] = false := by decide

/-- C1 (amended): every query produced by `QueryGeneratorImpl` ends with the
variant's final selector clause; each variant's selector only admits rows
carrying at least one of the four failing-expectation tags; a row tagged
`["RetryOnFailure"]` is included by the GPU selector but excluded by the
web-test selector, and `["Pass"]` is excluded by both. -/
theorem c1_final_selector_amended :
    (∀ tfcs bt qs, Gpu.QueryGeneratorImpl tfcs bt = Except.ok qs →
      ∀ q ∈ qs, strEndsWith q (Gpu.FINAL_SELECTOR_QUERY ++ "\n")) ∧
    (∀ tfcs bt qs, WebTest.QueryGeneratorImpl tfcs bt = Except.ok qs →
      ∀ q ∈ qs, strEndsWith q (WebTest.FINAL_SELECTOR_QUERY ++ "\n")) ∧
    (∀ tags, Gpu.finalSelectorKeeps tags = true →
      ∃ t, t ∈ tags ∧ t ∈ ["Failure", "RetryOnFailure", "Crash", "Timeout"]) ∧
    (∀ tags, WebTest.finalSelectorKeeps tags = true →
      ∃ t, t ∈ tags ∧ t ∈ ["Failure", "RetryOnFailure", "Crash", "Timeout"]) ∧
    Gpu.finalSelectorKeeps ["RetryOnFailure"] = true ∧
    Gpu.finalSelectorKeeps ["Pass"] = false ∧
    WebTest.finalSelectorKeeps ["Pass"] = false := by
  refine ⟨?_, ?_, ?_, ?_, by decide, by decide, by decide⟩
  · intro tfcs bt qs h q hq
    unfold Gpu.QueryGeneratorImpl at h
    split at h
    · injection h with h2
      subst h2
      obtain ⟨tfc, -, rfl⟩ := List.mem_map.mp hq
      simp only [Gpu.GPU_CI_BQ_QUERY_TEMPLATE]
      exact strEndsWith_here _ _ _
    · split at h
      · injection h with h2
        subst h2
        obtain ⟨tfc, -, rfl⟩ := List.mem_map.mp hq
        simp only [Gpu.GPU_TRY_BQ_QUERY_TEMPLATE]
        exact strEndsWith_here _ _ _
      · exact Except.noConfusion h
  · intro tfcs bt qs h q hq
    unfold WebTest.QueryGeneratorImpl at h
    split at h
    · injection h with h2
      subst h2
      obtain ⟨tfc, -, rfl⟩ := List.mem_map.mp hq
      simp only [WebTest.CI_BQ_QUERY_TEMPLATE]
      exact strEndsWith_here _ _ _
    · split at h
      · injection h with h2
        subst h2
        obtain ⟨tfc, -, rfl⟩ := List.mem_map.mp hq
        simp only [WebTest.TRY_BQ_QUERY_TEMPLATE]
        exact strEndsWith_here _ _ _
      · exact Except.noConfusion h
  · intro tags h
    simp only [Gpu.finalSelectorKeeps, Bool.or_eq_true] at h
    rcases h with h | h
    · exact ⟨"Failure", by simpa using h, by decide⟩
    · exact ⟨"RetryOnFailure", by simpa using h, by decide⟩
  · intro tags h
    simp only [WebTest.finalSelectorKeeps, Bool.or_eq_true] at h
    rcases h with (h | h) | h
    · exact ⟨"Failure", by simpa using h, by decide⟩
    · exact ⟨"Crash", by simpa using h, by decide⟩
    · exact ⟨"Timeout", by simpa using h, by decide⟩

/-- C1 witness: a concretely generated CI query ends with the GPU final
selector clause. -/
theorem c1_final_selector_amended_witness :
    strEndsWith (Gpu.GPU_CI_BQ_QUERY_TEMPLATE "")
      (Gpu.FINAL_SELECTOR_QUERY ++ "\n") :=
  c1_final_selector_amended.1 [""] (BuilderTypes.CI)
    ([Gpu.GPU_CI_BQ_QUERY_TEMPLATE ""]) (by rfl)
    (Gpu.GPU_CI_BQ_QUERY_TEMPLATE "") (by simp)

/-! ## Lemmas about the Python string primitives -/

theorem strToList_append (x y : String) :
    (x ++ y).toList = x.toList ++ y.toList := by
  simp [String.toList, String.data_append]

theorem strMk_toList (s : String) : String.mk s.toList = s := rfl

theorem pySplitLimited_zero (sep : Char) (cs : List Char) :
    pySplitLimited sep 0 cs = [cs] := by
  cases cs <;> rfl

theorem pySplitLimited_ne_nil (sep : Char) :
    ∀ (cs : List Char) (n : Nat), pySplitLimited sep n cs ≠ [] := by
  intro cs
  induction cs with
  | nil => intro n; simp [pySplitLimited]
  | cons c cs ih =>
    intro n
    cases n with
    | zero => simp [pySplitLimited]
    | succ n =>
      by_cases hc : c = sep
      · simp [pySplitLimited, hc]
      · simp only [pySplitLimited, if_neg hc]
        rcases hps : pySplitLimited sep (n + 1) cs with _ | ⟨p, ps⟩ <;> simp

theorem pySplitLimited_length (sep : Char) :
    ∀ (cs : List Char) (n : Nat),
      (pySplitLimited sep n cs).length = min n (cs.count sep) + 1 := by
  intro cs
  induction cs with
  | nil => intro n; simp [pySplitLimited]
  | cons c cs ih =>
    intro n
    cases n with
    | zero => simp [pySplitLimited_zero]
    | succ n =>
      by_cases hc : c = sep
      · subst hc
        simp [pySplitLimited, List.count_cons, ih n, Nat.succ_min_succ]
      · rcases hps : pySplitLimited sep (n + 1) cs with _ | ⟨p, ps⟩
        · exact absurd hps (pySplitLimited_ne_nil sep cs (n + 1))
        · have hlen := ih (n + 1)
          rw [hps] at hlen
          simp only [pySplitLimited, if_neg hc, hps, List.length_cons] at hlen ⊢
          rw [List.count_cons]
          simp [hc, hlen]

theorem pySplitLimited_append_sep (sep : Char) :
    ∀ (a : List Char), sep ∉ a → ∀ (n : Nat) (rest : List Char),
      pySplitLimited sep (n + 1) (a ++ sep :: rest) =
        a :: pySplitLimited sep n rest := by
  intro a
  induction a with
  | nil => intro _ n rest; simp [pySplitLimited]
  | cons c a ih =>
    intro ha n rest
    have hc : c ≠ sep := fun h => ha (h ▸ List.mem_cons_self c a)
    have ha' : sep ∉ a := fun h => ha (List.mem_cons_of_mem c h)
    have key := ih ha' n rest
    simp only [List.cons_append, pySplitLimited, if_neg hc]
    rcases hps : pySplitLimited sep (n + 1) (a ++ sep :: rest) with _ | ⟨p, ps⟩
    · exact absurd hps (pySplitLimited_ne_nil sep _ _)
    · rw [hps] at key
      injection key with k1 k2
      subst k1
      subst k2
      rfl

theorem isPrefixOf_append_self :
    ∀ (p r : List Char), List.isPrefixOf p (p ++ r) = true := by
  intro p r
  induction p with
  | nil => simp [List.isPrefixOf]
  | cons c p ih => simp [List.isPrefixOf, ih]

theorem isPrefixOf_append_of_le :
    ∀ (l m r : List Char), l.length ≤ m.length →
      List.isPrefixOf l (m ++ r) = List.isPrefixOf l m := by
  intro l
  induction l with
  | nil => intro m r _; simp [List.isPrefixOf]
  | cons c l ih =>
    intro m r hlen
    cases m with
    | nil => simp at hlen
    | cons d m =>
      simp only [List.cons_append, List.isPrefixOf]
      show (c == d && List.isPrefixOf l (m ++ r)) = (c == d && List.isPrefixOf l m)
      rw [ih m r (by simpa using hlen)]

theorem removeAllGo_fuel (pat : List Char) :
    ∀ (f₁ : Nat) (f₂ : Nat) (s : List Char), s.length ≤ f₁ → s.length ≤ f₂ →
      removeAllGo pat f₁ s = removeAllGo pat f₂ s := by
  intro f₁
  induction f₁ with
  | zero =>
    intro f₂ s h1 _
    have : s = [] := List.eq_nil_of_length_eq_zero (Nat.le_zero.mp h1)
    subst this
    cases f₂ <;> rfl
  | succ f ih =>
    intro f₂ s h1 h2
    cases s with
    | nil => cases f₂ <;> rfl
    | cons c cs =>
      cases f₂ with
      | zero => simp at h2
      | succ f' =>
        simp only [removeAllGo]
        by_cases hcond : (pat ≠ [] && List.isPrefixOf pat (c :: cs)) = true
        · rw [if_pos hcond, if_pos hcond]
          have hd : (List.drop (pat.length - 1) cs).length ≤ cs.length :=
            by simpa using List.length_drop_le (pat.length - 1) cs
          have hcs : cs.length ≤ f := by simpa using h1
          have hcs' : cs.length ≤ f' := by simpa using h2
          exact ih f' _ (le_trans hd hcs) (le_trans hd hcs')
        · rw [if_neg hcond, if_neg hcond]
          have hcs : cs.length ≤ f := by simpa using h1
          have hcs' : cs.length ≤ f' := by simpa using h2
          rw [ih f' cs hcs hcs']

theorem removeAllGo_of_not_contains (pat : List Char) :
    ∀ (s : List Char) (f : Nat), containsPat pat s = false →
      removeAllGo pat f s = s := by
  intro s
  induction s with
  | nil => intro f _; cases f <;> rfl
  | cons c cs ih =>
    intro f h
    have h1 : List.isPrefixOf pat (c :: cs) = false ∧
        containsPat pat cs = false := by
      simpa [containsPat] using h
    cases f with
    | zero => rfl
    | succ f =>
      have hcond : (pat ≠ [] && List.isPrefixOf pat (c :: cs)) = false := by
        simp [h1.1]
      simp only [removeAllGo]
      rw [if_neg (by rw [hcond]; decide)]
      rw [ih f h1.2]

theorem removeAll_append_self (pat rest : List Char) (hp : pat ≠ [])
    (hnc : containsPat pat rest = false) :
    removeAll pat (pat ++ rest) = rest := by
  cases pat with
  | nil => exact absurd rfl hp
  | cons p0 p =>
    unfold removeAll
    have hshape : (p0 :: p) ++ rest = p0 :: (p ++ rest) := rfl
    rw [hshape]
    have hfuel : (p0 :: (p ++ rest)).length = (p ++ rest).length + 1 := rfl
    rw [hfuel]
    simp only [removeAllGo]
    have hpre : List.isPrefixOf (p0 :: p) (p0 :: (p ++ rest)) = true := by
      have := isPrefixOf_append_self (p0 :: p) rest
      simpa using this
    rw [if_pos (by simp [hpre])]
    have hdrop : List.drop ((p0 :: p).length - 1) (p ++ rest) = rest := by
      simp only [List.length_cons, Nat.add_sub_cancel]
      exact List.drop_left p rest
    rw [hdrop]
    have hlen : rest.length ≤ (p ++ rest).length := by
      simp [List.length_append]
    rw [removeAllGo_fuel (p0 :: p) ((p ++ rest).length) rest.length rest hlen
      (le_refl _)]
    exact removeAllGo_of_not_contains (p0 :: p) rest rest.length hnc

/-- C2 counterexample: the web-test variant strips with Python
`str.replace`, which removes every occurrence of the prefix, so for a test
name that itself contains a known prefix the stripped identifier differs
from the name — the claimed left-inverse identity fails. -/
theorem c2_strip_counterexample :
    WebTest.StripPrefixFromTestId
        ("ninja://:blink_web_tests/" ++ "ninja://:blink_web_tests/x") =
      Except.ok "x" ∧
    ("x" : String) ≠ "ninja://:blink_web_tests/x" :=
  ⟨rfl, by decide⟩

/-- C2 (amended): in the GPU variant, stripping a prefix of the documented
shape (three dot-terminated segments) recovers the name for every name, and
an identifier with fewer than three dots raises; in the web-test variant,
stripping a known prefix off `prefix ++ name` recovers `name` provided the
name does not itself contain that prefix as a substring, and an identifier
starting with no known prefix raises. -/
theorem c2_strip_amended :
    (∀ a b c name : String, ('.') ∉ a.toList → ('.') ∉ b.toList →
      ('.') ∉ c.toList →
      Gpu.StripPrefixFromTestId (a ++ "." ++ b ++ "." ++ c ++ "." ++ name) =
        Except.ok name) ∧
    (∀ tid : String, tid.toList.count ('.') < 3 →
      Gpu.StripPrefixFromTestId tid =
        Except.error ("assert len(split_id) == 4")) ∧
    (∀ p name : String, p ∈ WebTest.KNOWN_TEST_ID_PREFIXES →
      containsPat p.toList name.toList = false →
      WebTest.StripPrefixFromTestId (p ++ name) = Except.ok name) ∧
    (∀ tid : String,
      (∀ p ∈ WebTest.KNOWN_TEST_ID_PREFIXES,
        List.isPrefixOf p.toList tid.toList = false) →
      WebTest.StripPrefixFromTestId tid =
        Except.error ("Unable to strip prefix from test ID " ++ tid)) := by
  have hdot : (".").toList = ['.'] := rfl
  refine ⟨?_, ?_, ?_, ?_⟩
  · intro a b c name ha hb hc
    unfold Gpu.StripPrefixFromTestId
    have h1 : (a ++ "." ++ b ++ "." ++ c ++ "." ++ name).toList
        = a.toList ++ ('.') ::
            (b.toList ++ ('.') :: (c.toList ++ ('.') :: name.toList)) := by
      simp [strToList_append, hdot, List.append_assoc, List.singleton_append]
    rw [h1, pySplitLimited_append_sep ('.') a.toList ha,
      pySplitLimited_append_sep ('.') b.toList hb,
      pySplitLimited_append_sep ('.') c.toList hc,
      pySplitLimited_zero]
    simp [List.getLastD, strMk_toList]
  · intro tid h
    unfold Gpu.StripPrefixFromTestId
    have hlen := pySplitLimited_length ('.') tid.toList 3
    have hne : (pySplitLimited ('.') 3 tid.toList).length ≠ 4 := by
      rw [hlen]
      have := Nat.min_le_right 3 (tid.toList.count ('.'))
      omega
    rw [if_neg hne]
  · intro p name hp hnc
    have hp' : p = "ninja://:blink_web_tests/" ∨
        p = "ninja://:webgpu_blink_web_tests" := by
      simpa [WebTest.KNOWN_TEST_ID_PREFIXES] using hp
    rcases hp' with rfl | rfl
    · unfold WebTest.StripPrefixFromTestId WebTest.KNOWN_TEST_ID_PREFIXES
        WebTest.stripLoop
      have hpre1 : List.isPrefixOf ("ninja://:blink_web_tests/").toList
          (("ninja://:blink_web_tests/" ++ name).toList) = true := by
        rw [strToList_append]
        exact isPrefixOf_append_self _ _
      rw [if_pos hpre1]
      have hrm : removeAll ("ninja://:blink_web_tests/").toList
          (("ninja://:blink_web_tests/" ++ name).toList) = name.toList := by
        rw [strToList_append]
        exact removeAll_append_self _ _ (by decide) hnc
      rw [hrm, strMk_toList]
    · unfold WebTest.StripPrefixFromTestId WebTest.KNOWN_TEST_ID_PREFIXES
        WebTest.stripLoop
      have hfalse : List.isPrefixOf ("ninja://:blink_web_tests/").toList
          (("ninja://:webgpu_blink_web_tests" ++ name).toList) = false := by
        rw [strToList_append, isPrefixOf_append_of_le _ _ _ (by decide)]
        decide
      rw [if_neg (by rw [hfalse]; decide)]
      unfold WebTest.stripLoop
      have hpre2 : List.isPrefixOf ("ninja://:webgpu_blink_web_tests").toList
          (("ninja://:webgpu_blink_web_tests" ++ name).toList) = true := by
        rw [strToList_append]
        exact isPrefixOf_append_self _ _
      rw [if_pos hpre2]
      have hrm : removeAll ("ninja://:webgpu_blink_web_tests").toList
          (("ninja://:webgpu_blink_web_tests" ++ name).toList) = name.toList := by
        rw [strToList_append]
        exact removeAll_append_self _ _ (by decide) hnc
      rw [hrm, strMk_toList]
  · intro tid h
    have h1 := h ("ninja://:blink_web_tests/")
      (by simp [WebTest.KNOWN_TEST_ID_PREFIXES])
    have h2 := h ("ninja://:webgpu_blink_web_tests")
      (by simp [WebTest.KNOWN_TEST_ID_PREFIXES])
    unfold WebTest.StripPrefixFromTestId WebTest.KNOWN_TEST_ID_PREFIXES
      WebTest.stripLoop
    rw [if_neg (by rw [h1]; decide)]
    unfold WebTest.stripLoop
    rw [if_neg (by rw [h2]; decide)]
    unfold WebTest.stripLoop
    rfl

/-- C2 witness: stripping the documented GPU prefix shape from a concrete
identifier recovers the test name, and stripping a known web-test prefix
recovers a name that does not contain it. -/
theorem c2_strip_amended_witness :
    Gpu.StripPrefixFromTestId
        ("ninja://chrome/test:telemetry_gpu_integration_test/gpu_tests" ++
          "." ++ "pixel_integration_test" ++ "." ++ "PixelIntegrationTest" ++
          "." ++ "Pixel_Canvas2DRedBox") =
      Except.ok "Pixel_Canvas2DRedBox" ∧
    WebTest.StripPrefixFromTestId
        ("ninja://:blink_web_tests/" ++ "fast/css/a.html") =
      Except.ok "fast/css/a.html" :=
  ⟨c2_strip_amended.1
      ("ninja://chrome/test:telemetry_gpu_integration_test/gpu_tests")
      ("pixel_integration_test") ("PixelIntegrationTest")
      ("Pixel_Canvas2DRedBox") (by decide) (by decide) (by decide),
    c2_strip_amended.2.2.1 ("ninja://:blink_web_tests/") ("fast/css/a.html")
      (by simp [WebTest.KNOWN_TEST_ID_PREFIXES]) (by decide)⟩

/-! ## Lemmas about split clause generation -/

theorem chunkList_flatten (k : Nat) (ids : List String) :
    (chunkList k ids).flatten = ids := by
  generalize hn : ids.length = n
  induction n using Nat.strong_induction_on generalizing ids with
  | _ n ih =>
    rw [chunkList]
    split
    · simp [*]
    · split
      · simp
      · rename_i hne hk
        simp only [List.flatten_cons]
        rw [ih ((ids.drop k).length) ?_ (ids.drop k) rfl]
        · exact List.take_append_drop k ids
        · subst hn
          have h1 : 0 < ids.length := List.length_pos.mpr hne
          have h2 : 0 < k := Nat.pos_of_ne_zero hk
          simp only [List.length_drop]
          omega

theorem chunkList_bound (k : Nat) (hk : 0 < k) (ids : List String) :
    ∀ c ∈ chunkList k ids, c ≠ [] ∧ c.length ≤ k := by
  generalize hn : ids.length = n
  induction n using Nat.strong_induction_on generalizing ids with
  | _ n ih =>
    intro c hc
    rw [chunkList] at hc
    split at hc
    · simp at hc
    · split at hc
      · omega
      · rename_i hne _
        rcases List.mem_cons.mp hc with rfl | hmem
        · constructor
          · have h1 : 0 < ids.length := List.length_pos.mpr hne
            have : 0 < (ids.take k).length := by
              simp only [List.length_take]
              omega
            exact List.length_pos.mp this
          · simpa using List.length_take_le k ids
        · subst hn
          have h1 : 0 < ids.length := List.length_pos.mpr hne
          exact ih ((ids.drop k).length)
            (by simp only [List.length_drop]; omega)
            (ids.drop k) rfl c hmem

theorem chunkList_ne_nil (k : Nat) (ids : List String) (hne : ids ≠ []) :
    chunkList k ids ≠ [] := by
  rw [chunkList]
  split
  · exact absurd (by assumption) hne
  · split
    · simp
    · simp

/-- C3: given a non-empty identifier list and a positive per-clause
identifier allowance (the row budget divided by the estimated rows per
test), every produced clause is non-empty and its identifier count times
the estimated rows per test stays within the row budget, and concatenating
the clauses in order reproduces the input list exactly — each identifier
appears exactly once. -/
theorem c3_split_query_partition (rowsPerTest budget : Nat)
    (ids : List String) (hne : ids ≠ [])
    (hpos : 0 < budget / rowsPerTest) :
    (∀ clause ∈ splitTestIds rowsPerTest budget ids,
      clause ≠ [] ∧ clause.length * rowsPerTest ≤ budget) ∧
    (splitTestIds rowsPerTest budget ids).flatten = ids ∧
    splitTestIds rowsPerTest budget ids ≠ [] := by
  refine ⟨?_, chunkList_flatten _ _, chunkList_ne_nil _ _ hne⟩
  intro clause hc
  obtain ⟨h1, h2⟩ := chunkList_bound (budget / rowsPerTest) hpos ids clause hc
  refine ⟨h1, ?_⟩
  calc clause.length * rowsPerTest
      ≤ (budget / rowsPerTest) * rowsPerTest := Nat.mul_le_mul_right _ h2
    _ ≤ budget := Nat.div_mul_le_self _ _

/-- C3 witness: three identifiers, two estimated rows per test, a budget of
five rows. -/
theorem c3_split_query_partition_witness :
    (splitTestIds 2 5 ["a", "b", "c"]).flatten = ["a", "b", "c"] :=
  (c3_split_query_partition 2 5 (["a", "b", "c"]) (by decide) (by decide)).2.1

/-- C7: on the spec's concrete inputs — baseline elements `["a"]`, baseline
attributes `["b"]`, default configuration allowing element `"c"` and
attribute `"d"` — the generated file is the prolog, then exactly four
`const char*` arrays named `kBaselineElements`, `kBaselineAttributes`,
`kDefaultElements` and `kDefaultAttributes`, each holding its sole entry
followed by a terminating `nullptr`, then the epilog. -/
theorem c7_generator_output :
    GenerateBuiltins.mainOutput ["a"] ["b"] ["c"] ["d"] =
      GenerateBuiltins.prologOut ++
      "const char* const kBaselineElements[] = \x7b\n  \"a\",\n  nullptr,\n\x7d;\n\n" ++
      "const char* const kBaselineAttributes[] = \x7b\n  \"b\",\n  nullptr,\n\x7d;\n\n" ++
      "const char* const kDefaultElements[] = \x7b\n  \"c\",\n  nullptr,\n\x7d;\n\n" ++
      "const char* const kDefaultAttributes[] = \x7b\n  \"d\",\n  nullptr,\n\x7d;\n\n" ++
      GenerateBuiltins.epilogOut ∧
    countOccur ("const char* const ".toList)
      ((GenerateBuiltins.mainOutput ["a"] ["b"] ["c"] ["d"]).toList) = 4 ∧
    countOccur ("  nullptr,\n".toList)
      ((GenerateBuiltins.mainOutput ["a"] ["b"] ["c"] ["d"]).toList) = 4 :=
  ⟨rfl, by decide, by decide⟩

/-- C8: the sanitizer builtins generator's `main` returns exit code 1
exactly when one of the three JSON reads or the output write raises, and 0
when all succeed; the first failing read is reported with its context and
never retried. -/
theorem c8_exit_codes (bePath baPath dcPath outPath : String)
    (be ba : Except String (List String))
    (dc : Except String (List String × List String))
    (wr : Except String Unit) :
    ((GenerateBuiltins.mainResult bePath baPath dcPath outPath
        be ba dc wr).1 = 0 ↔
      (be.isOk = true ∧ ba.isOk = true ∧ dc.isOk = true ∧
        wr.isOk = true)) ∧
    ((GenerateBuiltins.mainResult bePath baPath dcPath outPath
        be ba dc wr).1 = 0 ∨
      (GenerateBuiltins.mainResult bePath baPath dcPath outPath
        be ba dc wr).1 = 1) ∧
    (∀ err, be = Except.error err →
      GenerateBuiltins.mainResult bePath baPath dcPath outPath be ba dc wr =
        GenerateBuiltins.error ("reading baseline elements") [bePath, err]) ∧
    (∀ err v1 v2 v3, be = Except.ok v1 → ba = Except.ok v2 →
      dc = Except.ok v3 → wr = Except.error err →
      GenerateBuiltins.mainResult bePath baPath dcPath outPath be ba dc wr =
        GenerateBuiltins.error ("writing output file") [outPath, err]) := by
  rcases be with e1 | v1 <;> rcases ba with e2 | v2 <;>
    rcases dc with e3 | v3 <;> rcases wr with e4 | v4 <;>
    simp [GenerateBuiltins.mainResult, GenerateBuiltins.error, Except.isOk,
      Except.toBool]

/-- C8 witness: a failing first read maps to exit code 1 with the
descriptive message. -/
theorem c8_exit_codes_witness :
    GenerateBuiltins.mainResult "be.json" "ba.json" "dc.json" "out.cc"
        (Except.error "boom") (Except.ok []) (Except.ok ([], []))
        (Except.ok ()) =
      GenerateBuiltins.error ("reading baseline elements")
        ["be.json", "boom"] :=
  (c8_exit_codes "be.json" "ba.json" "dc.json" "out.cc"
    (Except.error "boom") (Except.ok []) (Except.ok ([], []))
    (Except.ok ())).2.2.1 "boom" rfl


/-! ## Lemmas about the CSS property-names offset table -/

theorem weightSumFrom_split (nameOf : Nat → Option String) (a v : Nat)
    (h : a < v) :
    ((List.range' a (v - a)).map (CssProps.namedWeight nameOf)).sum =
      CssProps.namedWeight nameOf a +
        ((List.range' (a + 1) (v - (a + 1))).map
          (CssProps.namedWeight nameOf)).sum := by
  have hva : v - a = (v - (a + 1)) + 1 := by omega
  rw [hva, List.range'_succ, List.map_cons, List.sum_cons]

theorem genImplLoop_range' (nameOf : Nat → Option String) :
    ∀ (n a cur : Nat),
      CssProps.genImplLoop nameOf (List.range' a n) cur =
        ((List.range' a n).map (fun v =>
          cur + ((List.range' a (v - a)).map
            (CssProps.namedWeight nameOf)).sum),
         (List.range' a n).filterMap nameOf) := by
  intro n
  induction n with
  | zero => intro a cur; simp [CssProps.genImplLoop]
  | succ n ih =>
    intro a cur
    rw [List.range'_succ]
    cases hv : nameOf a with
    | some name =>
      simp only [CssProps.genImplLoop, hv]
      rw [ih (a + 1) (cur + name.length + 1)]
      simp only [List.map_cons, List.filterMap_cons, hv, Prod.mk.injEq,
        List.cons.injEq, Nat.sub_self, List.range'_zero, List.map_nil,
        List.sum_nil, Nat.add_zero, true_and]
      refine ⟨?_, trivial⟩
      apply List.map_congr_left
      intro v hvmem
      have hav : a + 1 ≤ v := (List.mem_range'_1.mp hvmem).1
      rw [weightSumFrom_split nameOf a v (by omega),
        show CssProps.namedWeight nameOf a = name.length + 1 by
          simp [CssProps.namedWeight, hv]]
      ring
    | none =>
      simp only [CssProps.genImplLoop, hv]
      rw [ih (a + 1) cur]
      simp only [List.map_cons, List.filterMap_cons, hv, Prod.mk.injEq,
        List.cons.injEq, Nat.sub_self, List.range'_zero, List.map_nil,
        List.sum_nil, Nat.add_zero, true_and]
      refine ⟨?_, trivial⟩
      apply List.map_congr_left
      intro v hvmem
      have hav : a + 1 ≤ v := (List.mem_range'_1.mp hvmem).1
      rw [weightSumFrom_split nameOf a v (by omega),
        show CssProps.namedWeight nameOf a = 0 by
          simp [CssProps.namedWeight, hv]]
      ring

theorem weightSumBelow_succ (nameOf : Nat → Option String) (v : Nat) :
    CssProps.weightSumBelow nameOf (v + 1) =
      CssProps.weightSumBelow nameOf v + CssProps.namedWeight nameOf v := by
  simp [CssProps.weightSumBelow, List.range_succ]

theorem weightSumBelow_le_succ (nameOf : Nat → Option String) (v : Nat) :
    CssProps.weightSumBelow nameOf v ≤ CssProps.weightSumBelow nameOf (v + 1) := by
  rw [weightSumBelow_succ]
  exact Nat.le_add_right _ _

theorem weightSumFrom_eq_below (nameOf : Nat → Option String) (first : Nat)
    (hlow : ∀ w, w < first → nameOf w = none) (v : Nat) (hv : first ≤ v) :
    ((List.range' first (v - first)).map (CssProps.namedWeight nameOf)).sum =
      CssProps.weightSumBelow nameOf v := by
  unfold CssProps.weightSumBelow
  rw [List.range_eq_range']
  have hsplit : List.range' 0 first ++ List.range' first (v - first) =
      List.range' 0 v := by
    have h := List.range'_append 0 first (v - first) 1
    have h2 : v - first + first = v := Nat.sub_add_cancel hv
    simpa [h2, Nat.add_comm] using h
  rw [← hsplit, List.map_append, List.sum_append]
  have hzero : ((List.range' 0 first).map (CssProps.namedWeight nameOf)).sum
      = 0 := by
    apply List.sum_eq_zero
    intro x hx
    obtain ⟨w, hw, rfl⟩ := List.mem_map.mp hx
    have hwf : w < first := by
      have := List.mem_range'_1.mp hw
      omega
    simp [CssProps.namedWeight, hlow w hwf]
  rw [hzero, Nat.zero_add]

theorem chain'_le_map_range' (f : Nat → Nat) (hf : ∀ x, f x ≤ f (x + 1)) :
    ∀ (n a : Nat), List.Chain' (fun x y => x ≤ y) ((List.range' a n).map f) := by
  intro n
  induction n with
  | zero => intro a; simp
  | succ n ih =>
    intro a
    rw [List.range'_succ, List.map_cons]
    cases n with
    | zero => simp
    | succ m =>
      have htail := ih (a + 1)
      rw [List.range'_succ, List.map_cons] at htail ⊢
      exact List.chain'_cons.mpr ⟨hf a, htail⟩

theorem getD_map_range' (f : Nat → Nat) (a n i : Nat) (h : i < n) :
    (((List.range' a n).map f).getD i 0) = f (a + i) := by
  have hlen : i < ((List.range' a n).map f).length := by
    simp [h]
  rw [List.getD_eq_getElem _ _ hlen]
  simp [List.getElem_range']

/-- C10: `generate_implementation` emits exactly one offset entry for every
enum value from `first_property_id` through the maximum enum value
inclusive; each entry equals the sum of (name length + 1) over all
lower-valued named properties, the sequence is non-decreasing, an unnamed
enum value leaves the running offset unchanged so the following entry
repeats it, and `property_names` lists the names in ascending enum-value
order. -/
theorem c10_property_offsets (first maxE : Nat)
    (nameOf : Nat → Option String)
    (hlow : ∀ w, w < first → nameOf w = none) :
    (CssProps.generate_implementation first maxE nameOf).1.length =
      maxE + 1 - first ∧
    (CssProps.generate_implementation first maxE nameOf).1 =
      (List.range' first (maxE + 1 - first)).map
        (CssProps.weightSumBelow nameOf) ∧
    List.Chain' (fun x y => x ≤ y)
      (CssProps.generate_implementation first maxE nameOf).1 ∧
    (∀ i, i + 1 < maxE + 1 - first → nameOf (first + i) = none →
      (CssProps.generate_implementation first maxE nameOf).1.getD (i + 1) 0 =
        (CssProps.generate_implementation first maxE nameOf).1.getD i 0) ∧
    (CssProps.generate_implementation first maxE nameOf).2 =
      (List.range' first (maxE + 1 - first)).filterMap nameOf := by
  have hmain := genImplLoop_range' nameOf (maxE + 1 - first) first 0
  have hfst : (CssProps.generate_implementation first maxE nameOf).1 =
      (List.range' first (maxE + 1 - first)).map
        (CssProps.weightSumBelow nameOf) := by
    unfold CssProps.generate_implementation
    rw [hmain]
    apply List.map_congr_left
    intro v hv
    have hfv : first ≤ v := (List.mem_range'_1.mp hv).1
    rw [weightSumFrom_eq_below nameOf first hlow v hfv, Nat.zero_add]
  refine ⟨?_, hfst, ?_, ?_, ?_⟩
  · rw [hfst]
    simp [List.length_range']
  · rw [hfst]
    exact chain'_le_map_range' _ (weightSumBelow_le_succ nameOf) _ _
  · intro i hi hnone
    rw [hfst, getD_map_range' _ _ _ _ hi,
      getD_map_range' _ _ _ _ (by omega)]
    have : first + (i + 1) = (first + i) + 1 := by omega
    rw [this, weightSumBelow_succ]
    simp [CssProps.namedWeight, hnone]
  · unfold CssProps.generate_implementation
    rw [hmain]

/-- C10 witness: first enum value 2, named properties at 2 (`"ab"`) and 4
(`"c"`), value 3 unnamed. -/
theorem c10_property_offsets_witness :
    (CssProps.generate_implementation 2 4
      (fun v => if v = 2 then some "ab" else
        if v = 4 then some "c" else none)).1 =
      (List.range' 2 3).map (CssProps.weightSumBelow
        (fun v => if v = 2 then some "ab" else
          if v = 4 then some "c" else none)) :=
  (c10_property_offsets 2 4
    (fun v => if v = 2 then some "ab" else
      if v = 4 then some "c" else none)
    (by intro w hw; interval_cases w <;> rfl)).2.1
